import Mathlib

/-!
Shallow embedding of the SCADA Web API core (src/main.py, src/parks.py,
src/parks_routes.py): the OPC UA device supervisor (`connect_and_discover`,
`read_data`), the broadcast loop's reconnect gating and per-socket fan-out,
the write-value coercion, park/visibility resolution, and park grants.

Python-side I/O (network connects, OPC UA reads, websocket sends) is
modelled by explicit outcome parameters fed to otherwise pure state
transformers; Python exceptions caught inside the source functions are
modelled by the corresponding outcome constructors.
-/

namespace Scada

/-- `ConnectionStatus` enum of src/main.py (lines 150-154). -/
inductive ConnectionStatus where
  | CONNECTED
  | CONNECTING
  | DISCONNECTED
  | ERROR
deriving DecidableEq, Repr

/-- Variant type of an OPC UA node as relevant to the write path: the
source calls `node.get_data_type_as_variant_type()` and distinguishes
(only conceptually, never in code) integral from other representations. -/
inductive VariantType where
  | vtInt
  | vtFloat
  | vtBool
  | vtString
deriving DecidableEq, Repr

/-- A discovered OPC UA node handle, reduced to the only attribute the
embedded operations consult: its data type as a variant type. -/
structure WNode where
  vt : VariantType
deriving DecidableEq, Repr

/-- Mutable state of one `OpcUaClient` (src/main.py lines 156-165).
`hasClient` models `self.client is not None` (truthiness of the handle);
`nodes` models the `self.nodes` dict as an association list from browse
name to node handle; time is in minutes as an integer. -/
structure DeviceState where
  url : String
  name : String
  serverName : String
  rootNodeId : String
  hasClient : Bool
  nodes : List (String × WNode)
  status : ConnectionStatus
  lastReconnectAttempt : Option Int
deriving DecidableEq, Repr

/-- One per-device read result dict as built by `read_data`
(src/main.py line 210): name, status (captured as a status value),
url, tag-name to stringified-value mapping, optional error string. -/
structure Snapshot where
  name : String
  status : ConnectionStatus
  url : String
  nodes : List (String × String)
  error : Option String
deriving DecidableEq, Repr

/-- Environment outcome of one `connect_and_discover` call: either the
connect + root-node resolution + traversal succeeded, yielding the
(best-effort) server-name read result and the discovered node map, or
some step inside the `try` block raised. -/
inductive ConnectOutcome where
  | success (serverNameRead : Option String) (discovered : List (String × WNode))
  | failure
deriving DecidableEq, Repr

/-- `OpcUaClient.connect_and_discover` (src/main.py lines 181-207) as a
state transformer: unconditionally stamps `last_reconnect_attempt`,
tears down the old client (exceptions swallowed), installs a fresh
client handle, sets status CONNECTING and clears the node map; then on
success stores the server name (empty string when the best-effort read
raised or returned a falsy value), the discovered node map and status
CONNECTED, returning `true`; on any failure sets status DISCONNECTED,
clears the client handle and returns `false`. -/
def connect_and_discover (p : DeviceState) (now : Int) (out : ConnectOutcome) :
    DeviceState × Bool :=
  let p1 : DeviceState :=
    { p with lastReconnectAttempt := some now
             hasClient := true
             status := ConnectionStatus.CONNECTING
             nodes := [] }
  match out with
  | ConnectOutcome.success serverNameRead discovered =>
      ({ p1 with serverName := serverNameRead.getD ""
                 nodes := discovered
                 status := ConnectionStatus.CONNECTED }, true)
  | ConnectOutcome.failure =>
      ({ p1 with status := ConnectionStatus.DISCONNECTED
                 hasClient := false }, false)

/-- Environment outcome of the batched read inside `read_data`: the
values arrive, a `UaStatusCodeError` is raised, or any other exception
is raised. -/
inductive ReadOutcome where
  | ok (values : List String)
  | protocolError (msg : String)
  | otherError
deriving DecidableEq, Repr

/-- `OpcUaClient.read_data` (src/main.py lines 209-227): builds the base
dict (capturing the status string before any mutation); returns it
untouched when not CONNECTED or the client handle is absent; flags an
empty node map; otherwise zips names with read values, or on a
`UaStatusCodeError` sets device status ERROR and an error string, or on
any other exception leaves the device untouched with a transient note.
The function is total: no outcome makes it raise.

First the base dict of src/main.py line 210, capturing the status
before any mutation: -/
def baseSnapshot (p : DeviceState) : Snapshot :=
  { name := p.name, status := p.status, url := p.url, nodes := [], error := none }

/-- The body of `read_data`: dispatch on connection state and read
outcome, per src/main.py lines 211-227. -/
def read_data (p : DeviceState) (out : ReadOutcome) : DeviceState × Snapshot :=
  if p.status ≠ ConnectionStatus.CONNECTED ∨ p.hasClient = false then
    (p, baseSnapshot p)
  else if p.nodes = [] then
    (p, { baseSnapshot p with error := some "No readable nodes." })
  else
    match out with
    | ReadOutcome.ok values =>
        (p, { baseSnapshot p with nodes := (p.nodes.map Prod.fst).zip values })
    | ReadOutcome.protocolError msg =>
        ({ p with status := ConnectionStatus.ERROR },
         { baseSnapshot p with error := some (String.append "OPC UA read error: " msg) })
    | ReadOutcome.otherError =>
        (p, { baseSnapshot p with error := some "Temporary read failure." })

/-- One supervisor-driven event on a device: a reconnect attempt (with
its wall-clock time and environment outcome) or a read sweep visit. -/
inductive DevEvent where
  | connect (now : Int) (out : ConnectOutcome)
  | read (out : ReadOutcome)
deriving DecidableEq, Repr

/-- The device-state effect of one event. -/
def devStep (p : DeviceState) (e : DevEvent) : DeviceState :=
  match e with
  | DevEvent.connect now out => (connect_and_discover p now out).1
  | DevEvent.read out => (read_data p out).1

/-- The sequence of device states visited while processing a list of
events, starting state included. -/
def devTrace (p : DeviceState) (es : List DevEvent) : List DeviceState :=
  match es with
  | [] => [p]
  | e :: rest => p :: devTrace (devStep p e) rest

/-! ## Broadcast loop: reconnect gating (src/main.py lines 238-249) -/

/-- The per-device condition of the `reconnect_list` comprehension
(src/main.py lines 243-247): status DISCONNECTED or ERROR, and either
never attempted or strictly more than `cooldown` elapsed since the last
attempt. -/
def shouldAttemptReconnect (cooldown : Int) (now : Int) (p : DeviceState) : Bool :=
  (p.status == ConnectionStatus.DISCONNECTED || p.status == ConnectionStatus.ERROR) &&
  (match p.lastReconnectAttempt with
   | none => true
   | some t => decide (now - t > cooldown))

/-- The `reconnect_list` built each tick: exactly the devices the
scheduler hands to the executor for `connect_and_discover` that tick. -/
def reconnectList (cooldown : Int) (now : Int) (devices : List DeviceState) :
    List DeviceState :=
  devices.filter (shouldAttemptReconnect cooldown now)

/-! ## Broadcast loop: per-socket fan-out (src/main.py lines 255-269) -/

/-- A registered websocket channel as the broadcast loop sees it:
the `allowed_urls` attribute attached at subscription time (`none`
models the attribute being absent, `some urls` the attached set), and
whether scheduling a send on it raises. -/
structure WsChannel where
  allowedUrls : Option (List String)
  sendFails : Bool
deriving DecidableEq, Repr

/-- The subscriber registry `active_ws_connections`: user id to the set
of open sockets of that user, as an association list. -/
abbrev Registry := List (String × List WsChannel)

/-- The filter applied per socket (src/main.py lines 258-262):
`visible_data = [d for d in all_plc_data if d["url"] in allowed] if
allowed else all_plc_data`. Python truthiness: the full batch is used
both when the attribute is absent and when the attached set is empty. -/
def visibleData (allowed : Option (List String)) (batch : List Snapshot) :
    List Snapshot :=
  match allowed with
  | none => batch
  | some urls =>
      if urls = [] then batch
      else batch.filter (fun d => urls.contains d.url)

/-- The envelope wrapped around the filtered batch (src/main.py
lines 263-266). -/
structure Payload where
  type : String
  plcClients : List Snapshot
deriving DecidableEq, Repr

/-- The body of the inner `for ws in sockets` loop for one socket
(src/main.py lines 257-269): build the filtered payload and schedule
the send; any exception is caught and logged (`logging.error`), and the
except branch touches neither the registry nor any other socket. The
result is the registry as left by the body plus the payload delivered
to this socket, if any. -/
def handleSocket (reg : Registry) (ws : WsChannel) (batch : List Snapshot) :
    Registry × Option Payload :=
  if ws.sendFails then
    (reg, none)
  else
    (reg, some { type := "telemetry_update", plcClients := visibleData ws.allowedUrls batch })

/-- The inner loop over one user's sockets, threading the registry and
collecting the payloads actually delivered (tagged with the user id). -/
def broadcastSockets (reg : Registry) (uid : String) (sockets : List WsChannel)
    (batch : List Snapshot) : Registry × List (String × Payload) :=
  match sockets with
  | [] => (reg, [])
  | ws :: rest =>
      match handleSocket reg ws batch with
      | (reg1, none) => broadcastSockets reg1 uid rest batch
      | (reg1, some payload) =>
          let (reg2, outs) := broadcastSockets reg1 uid rest batch
          (reg2, (uid, payload) :: outs)

/-- The outer loop over `list(active_ws_connections.items())`
(src/main.py line 255), threading the registry through every entry. -/
def broadcastEntries (reg : Registry) (entries : List (String × List WsChannel))
    (batch : List Snapshot) : Registry × List (String × Payload) :=
  match entries with
  | [] => (reg, [])
  | (uid, sockets) :: rest =>
      let (reg1, outs1) := broadcastSockets reg uid sockets batch
      let (reg2, outs2) := broadcastEntries reg1 rest batch
      (reg2, outs1 ++ outs2)

/-- One full broadcast pass of a tick: iterate a snapshot of the
registry's entries, returning the registry after the pass and the
delivered payloads. -/
def broadcastPass (reg : Registry) (batch : List Snapshot) :
    Registry × List (String × Payload) :=
  broadcastEntries reg reg batch

/-- The websocket handler's cleanup (src/main.py lines 493-497): discard
the socket from its user's set and drop the user key when the set
becomes empty. This — not the broadcast loop — is where sockets leave
the registry. -/
def unregisterSocket (reg : Registry) (uid : String) (ws : WsChannel) : Registry :=
  (reg.map (fun e => if e.1 = uid then (e.1, e.2.filter (fun w => w != ws)) else e)).filter
    (fun e => !(e.1 == uid && e.2.isEmpty))

/-! ## Write path (src/main.py lines 134-137 and 380-399) -/

/-- The `value` field of `WriteRequest`: `Union[float, List[bool], int,
str]`. A float is modelled as a rational number. -/
inductive WriteValue where
  | vfloat (q : Rat)
  | vint (n : Int)
  | vboolList (bs : List Bool)
  | vstr (s : String)
deriving DecidableEq, Repr

/-- Python `int()` applied to a float: truncation toward zero. -/
def truncFloat (q : Rat) : Int :=
  Int.tdiv q.num (q.den : Int)

/-- Line 392 of src/main.py, `v = int(req.value) if
isinstance(req.value, float) else req.value`: a float is truncated
toward zero, every other value is passed through unchanged. The target
node's variant type is not consulted. -/
def coerceWriteValue (v : WriteValue) : WriteValue :=
  match v with
  | WriteValue.vfloat q => WriteValue.vint (truncFloat q)
  | other => other

/-- Result of `write_plc_value`: the value actually recorded (together
with the target's variant type from line 391), or the rejection the
endpoint raises. -/
inductive WriteOutcome where
  | success (vt : VariantType) (written : WriteValue)
  | plcNotConnected
  | nodeNotFound
  | writeFailed
deriving DecidableEq, Repr

/-- `write_plc_value` (src/main.py lines 380-399) past the superuser
check: locate the target client by URL and require it CONNECTED (404
otherwise), look up the node by name (404 otherwise), then coerce the
value and perform the write; `ioFails` models the `set_attribute` (or
variant-type fetch) raising, which the endpoint converts to a 500. -/
def write_plc_value (clients : List DeviceState) (plcUrl : String)
    (nodeName : String) (value : WriteValue) (ioFails : Bool) : WriteOutcome :=
  match clients.find? (fun p => p.url == plcUrl) with
  | none => WriteOutcome.plcNotConnected
  | some target =>
      if target.status ≠ ConnectionStatus.CONNECTED then WriteOutcome.plcNotConnected
      else
        match target.nodes.find? (fun kv => kv.1 == nodeName) with
        | none => WriteOutcome.nodeNotFound
        | some kv =>
            if ioFails then WriteOutcome.writeFailed
            else WriteOutcome.success kv.2.vt (coerceWriteValue value)

/-! ## Parks and visibility resolution (src/parks.py) -/

/-- True on the characters the slug regex `[^a-z0-9]+` keeps. -/
def isSlugChar (c : Char) : Bool :=
  (Char.ofNat 97 ≤ c && c ≤ Char.ofNat 122) || (Char.ofNat 48 ≤ c && c ≤ Char.ofNat 57)

/-- Replace every maximal run of non-slug characters by one
underscore, as `re.sub` with `[^a-z0-9]+` does. -/
def collapseNonSlugAux : Bool → List Char → List Char
  | _, [] => []
  | inRun, c :: rest =>
      if isSlugChar c then c :: collapseNonSlugAux false rest
      else if inRun then collapseNonSlugAux true rest
      else Char.ofNat 95 :: collapseNonSlugAux true rest

/-- Entry point of the run-collapsing pass, starting outside a run. -/
def collapseNonSlug (cs : List Char) : List Char :=
  collapseNonSlugAux false cs

/-- `slugify` (src/parks.py lines 12-15): trim, lowercase, collapse
non-alphanumeric runs to underscores, strip leading and trailing
underscores, and fall back to "park" when empty. -/
def slugify (value : String) : String :=
  let s := value.trim.toLower
  let collapsed := collapseNonSlug s.data
  let stripped :=
    ((collapsed.dropWhile (fun c => c == Char.ofNat 95)).reverse.dropWhile
      (fun c => c == Char.ofNat 95)).reverse
  if stripped = [] then "park" else String.mk stripped

/-- One entry of `plc_config` in config.json as src/parks.py reads it:
`item.get("id")`, `item.get("name")`, `item.get("url")`, each possibly
absent. -/
structure PlcEntry where
  id : Option String
  name : Option String
  url : Option String
deriving DecidableEq, Repr

/-- The value stored per park id in `PARKS`. -/
structure ParkInfo where
  name : String
  url : String
deriving DecidableEq, Repr

/-- Python dict assignment `PARKS[park_id] = v`: overwrite the existing
binding or append a new one. -/
def insertPark (parks : List (String × ParkInfo)) (k : String) (v : ParkInfo) :
    List (String × ParkInfo) :=
  if parks.any (fun kv => kv.1 == k) then
    parks.map (fun kv => if kv.1 = k then (k, v) else kv)
  else parks ++ [(k, v)]

/-- Python `x or y` on strings/None: `y` when `x` is None or empty. -/
def orElseStr (x : Option String) (y : String) : String :=
  match x with
  | none => y
  | some s => if s = "" then y else s

/-- The `PARKS` construction loop (src/parks.py lines 30-38): for each
config entry take its name and url (empty string when absent or falsy),
the park id from the `id` field or the slugified name, silently skip
entries without a url, and store name (falling back to the park id) and
url under the park id. -/
def addParkEntry (parks : List (String × ParkInfo)) (item : PlcEntry) :
    List (String × ParkInfo) :=
  let name := orElseStr item.name ""
  let url := orElseStr item.url ""
  let parkId := orElseStr item.id (slugify name)
  if url = "" then parks
  else insertPark parks parkId { name := if name = "" then parkId else name, url := url }

/-- `PARKS` as a function of the loaded `plc_config`. -/
def buildParks (cfg : List PlcEntry) : List (String × ParkInfo) :=
  cfg.foldl addParkEntry []

/-- `PARKS.get(pid)`. -/
def parkLookup (parks : List (String × ParkInfo)) (pid : String) : Option ParkInfo :=
  (parks.find? (fun kv => kv.1 == pid)).map Prod.snd

/-- `is_valid_park` (src/parks.py lines 43-44): membership in `PARKS`. -/
def is_valid_park (parks : List (String × ParkInfo)) (pid : String) : Bool :=
  (parkLookup parks pid).isSome

/-- Set insertion modelling `set.add`. -/
def insertStr (s : List String) (x : String) : List String :=
  if s.contains x then s else s ++ [x]

/-- `map_park_ids_to_urls` (src/parks.py lines 46-53): collect the urls
of known park ids with a truthy url field; unknown ids contribute
nothing. -/
def addParkUrl (parks : List (String × ParkInfo)) (urls : List String) (pid : String) :
    List String :=
  match parkLookup parks pid with
  | some info => if info.url ≠ "" then insertStr urls info.url else urls
  | none => urls

/-- The collection loop of `map_park_ids_to_urls`. -/
def map_park_ids_to_urls (parks : List (String × ParkInfo)) (parkIds : List String) :
    List String :=
  parkIds.foldl (addParkUrl parks) []

/-- `user_allowed_park_ids` (src/parks.py lines 62-72): the park ids in
the user's access rows, filtered to those that still exist in
config.json, as a set. -/
def user_allowed_park_ids (parks : List (String × ParkInfo)) (rows : List String) :
    List String :=
  (rows.filter (is_valid_park parks)).foldl insertStr []

/-- `user_allowed_urls` (src/parks.py lines 74-77). -/
def user_allowed_urls (parks : List (String × ParkInfo)) (rows : List String) :
    List String :=
  map_park_ids_to_urls parks (user_allowed_park_ids parks rows)

/-! ## Park grants (src/parks_routes.py lines 34-52) -/

/-- The user-park access table: one row per (user id, park id) pair,
user ids abstracted to naturals. -/
abbrev AccessTable := List (Nat × String)

/-- Number of rows matching a (user, park) pair. -/
def countPair (t : AccessTable) (uid : Nat) (pid : String) : Nat :=
  (t.filter (fun r => r.1 == uid && r.2 == pid)).length

/-- Result of the grant endpoint: the table after commit, a 404 for an
unknown park id, or the `scalar_one_or_none` fault when the pair is
already duplicated. -/
inductive GrantResult where
  | ok (t : AccessTable)
  | unknownPark
  | multipleRows
deriving DecidableEq, Repr

/-- `grant_user_park` (src/parks_routes.py lines 34-52): reject unknown
park ids with a 404; otherwise fetch the existing row with
`scalar_one_or_none` (which faults on more than one row) and insert a
new row only when none exists. -/
def grant_user_park (parks : List (String × ParkInfo)) (t : AccessTable)
    (uid : Nat) (pid : String) : GrantResult :=
  if ¬ is_valid_park parks pid then GrantResult.unknownPark
  else
    match countPair t uid pid with
    | 0 => GrantResult.ok (t ++ [(uid, pid)])
    | 1 => GrantResult.ok t
    | _ => GrantResult.multipleRows

/-! ## Step predicate and concrete sample states used by the theorems -/

/-- The status-transition discipline claimed for the supervisor: a
device never moves from DISCONNECTED straight to ERROR, and ERROR is
only ever entered from CONNECTED (or retained from ERROR itself, since
`read_data` on an ERROR device is a no-op). -/
def statusStepOk (s s' : DeviceState) : Prop :=
  (s.status = ConnectionStatus.DISCONNECTED → s'.status ≠ ConnectionStatus.ERROR) ∧
  (s'.status = ConnectionStatus.ERROR →
    s.status = ConnectionStatus.CONNECTED ∨ s.status = ConnectionStatus.ERROR)

/-- Sample snapshot of a device at endpoint `opc.tcp://a:4840`. -/
def snapA : Snapshot :=
  { name := "Alpha", status := ConnectionStatus.CONNECTED, url := "opc.tcp://a:4840",
    nodes := [("T1", "1")], error := none }

/-- Sample snapshot of a device at endpoint `opc.tcp://b:4840`. -/
def snapB : Snapshot :=
  { name := "Beta", status := ConnectionStatus.CONNECTED, url := "opc.tcp://b:4840",
    nodes := [("T2", "2")], error := none }

/-- Sample disconnected device that failed its first connect at time 0. -/
def devA : DeviceState :=
  { url := "opc.tcp://a:4840", name := "Alpha", serverName := "", rootNodeId := "ns=2;i=1",
    hasClient := false, nodes := [], status := ConnectionStatus.DISCONNECTED,
    lastReconnectAttempt := some 0 }

/-- Sample connected device exposing an integral-typed tag `Setpoint`. -/
def devInt : DeviceState :=
  { url := "opc.tcp://int:4840", name := "IntPlc", serverName := "", rootNodeId := "ns=2;i=1",
    hasClient := true, nodes := [("Setpoint", { vt := VariantType.vtInt })],
    status := ConnectionStatus.CONNECTED, lastReconnectAttempt := none }

/-- Sample connected device exposing a float-typed tag `Ratio2`. -/
def devFloat : DeviceState :=
  { url := "opc.tcp://flt:4840", name := "FloatPlc", serverName := "", rootNodeId := "ns=2;i=1",
    hasClient := true, nodes := [("Ratio2", { vt := VariantType.vtFloat })],
    status := ConnectionStatus.CONNECTED, lastReconnectAttempt := none }

/-- A subscriber channel whose send raises, restricted to endpoint a. -/
def failingChannel : WsChannel :=
  { allowedUrls := some ["opc.tcp://a:4840"], sendFails := true }

/-- A subscriber channel whose send succeeds, restricted to endpoint a. -/
def healthyChannel : WsChannel :=
  { allowedUrls := some ["opc.tcp://a:4840"], sendFails := false }

/-- A registry holding one user with one failing channel. -/
def regC2 : Registry := [("user-x", [failingChannel])]

/-- A sample loaded configuration with two complete park entries. -/
def cfgSample : List PlcEntry :=
  [{ id := some "p1", name := some "Park One", url := some "opc.tcp://a:4840" },
   { id := some "north", name := some "North Farm", url := some "opc.tcp://b:4840" }]

/-! ## Theorems about the device supervisor (C5 - C8) -/

/-- Helper: a `connect_and_discover` call always ends in CONNECTED or
DISCONNECTED, never in ERROR or CONNECTING. -/
theorem connect_fst_status (p : DeviceState) (now : Int) (out : ConnectOutcome) :
    (connect_and_discover p now out).1.status = ConnectionStatus.CONNECTED ∨
    (connect_and_discover p now out).1.status = ConnectionStatus.DISCONNECTED := by
  cases out <;> simp [connect_and_discover]

/-- Helper: `read_data` either leaves the device untouched, or moves a
CONNECTED device to ERROR. -/
theorem read_data_fst (p : DeviceState) (out : ReadOutcome) :
    (read_data p out).1 = p ∨
    ((read_data p out).1 = { p with status := ConnectionStatus.ERROR } ∧
      p.status = ConnectionStatus.CONNECTED) := by
  unfold read_data
  split
  · left; rfl
  · next h =>
    push_neg at h
    split
    · left; rfl
    · cases out with
      | ok values => left; rfl
      | protocolError msg => right; exact ⟨rfl, h.1⟩
      | otherError => left; rfl

/-- Helper: every single supervisor step respects the claimed status
discipline. -/
theorem devStep_statusStepOk (p : DeviceState) (e : DevEvent) :
    statusStepOk p (devStep p e) := by
  cases e with
  | connect now out =>
      rcases connect_fst_status p now out with h | h <;>
        exact ⟨fun _ => by simp [devStep, h], fun herr => by simp [devStep, h] at herr⟩
  | read out =>
      rcases read_data_fst p out with h | ⟨h, hconn⟩
      · exact ⟨fun hd => by simp [devStep, h, hd], fun he => Or.inr (by simpa [devStep, h] using he)⟩
      · constructor
        · intro hd
          rw [hconn] at hd
          cases hd
        · intro _
          exact Or.inl hconn

/-- Helper: the first state of a trace is the starting state. -/
theorem devTrace_head (p : DeviceState) (es : List DevEvent) :
    (devTrace p es).head? = some p := by
  cases es <;> rfl

/-- Claim C5: in every reachable sequence of device status transitions
produced by `connect_and_discover` and `read_data`, a device never
moves from DISCONNECTED directly to ERROR; the ERROR status is only
ever entered from CONNECTED (a protocol-level read failure), or trivially
retained from ERROR itself. -/
theorem c5_error_only_from_connected (p : DeviceState) (es : List DevEvent) :
    List.Chain' statusStepOk (devTrace p es) := by
  induction es generalizing p with
  | nil => exact List.chain'_singleton p
  | cons e rest ih =>
      rw [devTrace]
      refine List.chain'_cons'.2 ⟨?_, ih (devStep p e)⟩
      intro y hy
      rw [devTrace_head] at hy
      cases hy
      exact devStep_statusStepOk p e

/-- Witness for C5 at a concrete device and event sequence. -/
theorem c5_witness :
    List.Chain' statusStepOk
      (devTrace devA [DevEvent.connect 5 ConnectOutcome.failure,
                      DevEvent.read ReadOutcome.otherError]) :=
  c5_error_only_from_connected devA _

/-- Claim C6: on a device that is not CONNECTED or has no client
handle, `read_data` returns the device unchanged together with a
snapshot carrying its name, current status and url, an empty node
mapping and no error — and, being total, raises nothing. -/
theorem c6_read_not_connected_empty_snapshot (p : DeviceState) (out : ReadOutcome)
    (h : p.status ≠ ConnectionStatus.CONNECTED ∨ p.hasClient = false) :
    read_data p out =
      (p, { name := p.name, status := p.status, url := p.url, nodes := [], error := none }) := by
  unfold read_data
  rw [if_pos h]
  rfl

/-- Witness for C6 at a concrete disconnected device. -/
theorem c6_witness :
    read_data devA (ReadOutcome.ok ["7"]) =
      (devA, { name := devA.name, status := devA.status, url := devA.url,
               nodes := [], error := none }) :=
  c6_read_not_connected_empty_snapshot devA (ReadOutcome.ok ["7"]) (Or.inl (by decide))

/-- Claim C7: on a CONNECTED device with a client handle and a
non-empty node map, a read failure is handled in exactly two tiers: a
protocol-level error moves the device to ERROR and attaches an error
string to the snapshot, while any other failure leaves the device
state fully unchanged and marks the snapshot with the generic
transient note; both tiers return normally (the embedding is total, so
neither raises). -/
theorem c7_read_failure_two_tiers (p : DeviceState) (msg : String)
    (hs : p.status = ConnectionStatus.CONNECTED) (hc : p.hasClient = true)
    (hn : p.nodes ≠ []) :
    (read_data p (ReadOutcome.protocolError msg)).1 =
        { p with status := ConnectionStatus.ERROR } ∧
    (read_data p (ReadOutcome.protocolError msg)).2.error =
        some (String.append "OPC UA read error: " msg) ∧
    (read_data p ReadOutcome.otherError).1 = p ∧
    (read_data p ReadOutcome.otherError).2.error = some "Temporary read failure." := by
  unfold read_data
  simp [hs, hc, hn, baseSnapshot]

/-- Witness for C7 at a concrete connected device. -/
theorem c7_witness :
    (read_data devInt (ReadOutcome.protocolError "BadNodeIdUnknown")).1 =
        { devInt with status := ConnectionStatus.ERROR } ∧
    (read_data devInt (ReadOutcome.protocolError "BadNodeIdUnknown")).2.error =
        some (String.append "OPC UA read error: " "BadNodeIdUnknown") ∧
    (read_data devInt ReadOutcome.otherError).1 = devInt ∧
    (read_data devInt ReadOutcome.otherError).2.error = some "Temporary read failure." :=
  c7_read_failure_two_tiers devInt "BadNodeIdUnknown" rfl rfl (by decide)

/-- Claim C8: every `connect_and_discover` call stamps the
last-reconnect-attempt timestamp, succeeds exactly when the environment
outcome is a success — in which case status becomes CONNECTED and the
node map is replaced by the freshly discovered one — and on any failure
sets status DISCONNECTED and clears the client handle, returning
`false`. -/
theorem c8_connect_postconditions (p : DeviceState) (now : Int) (out : ConnectOutcome) :
    (connect_and_discover p now out).1.lastReconnectAttempt = some now ∧
    ((connect_and_discover p now out).2 = true ↔
      ∃ sn nd, out = ConnectOutcome.success sn nd) ∧
    (∀ sn nd, out = ConnectOutcome.success sn nd →
      (connect_and_discover p now out).1.status = ConnectionStatus.CONNECTED ∧
      (connect_and_discover p now out).1.nodes = nd) ∧
    (out = ConnectOutcome.failure →
      (connect_and_discover p now out).1.status = ConnectionStatus.DISCONNECTED ∧
      (connect_and_discover p now out).1.hasClient = false ∧
      (connect_and_discover p now out).2 = false) := by
  cases out with
  | success sn nd =>
      refine ⟨rfl, ⟨fun _ => ⟨sn, nd, rfl⟩, fun _ => rfl⟩, ?_, fun h => by cases h⟩
      intro sn2 nd2 h
      cases h
      exact ⟨rfl, rfl⟩
  | failure =>
      refine ⟨rfl, ⟨?_, ?_⟩, ?_, fun _ => ⟨rfl, rfl, rfl⟩⟩
      · intro h
        cases h
      · rintro ⟨sn, nd, h⟩
        cases h
      · intro sn nd h
        cases h

/-- Witness for C8: the failure postconditions at a concrete call. -/
theorem c8_witness :
    (connect_and_discover devA 5 ConnectOutcome.failure).1.lastReconnectAttempt = some 5 ∧
    (connect_and_discover devA 5 ConnectOutcome.failure).1.status =
        ConnectionStatus.DISCONNECTED ∧
    (connect_and_discover devA 5 ConnectOutcome.failure).2 = false := by
  have h := c8_connect_postconditions devA 5 ConnectOutcome.failure
  exact ⟨h.1, (h.2.2.2 rfl).1, (h.2.2.2 rfl).2.2⟩

/-! ## Theorems about the reconnect gate (C4) -/

/-- Claim C4: a device whose last reconnect attempt lies within the
cooldown window is never put on the tick's reconnect list, regardless
of its status and of how many ticks fall inside the window; a device
whose cooldown has elapsed (strictly), or which was never attempted,
and whose status is DISCONNECTED or ERROR, is put on the list and hence
attempted. -/
theorem c4_reconnect_cooldown_gate (cooldown now : Int) (devices : List DeviceState)
    (p : DeviceState) (t : Int) :
    (p.lastReconnectAttempt = some t → now - t ≤ cooldown →
      p ∉ reconnectList cooldown now devices) ∧
    (p ∈ devices →
      (p.status = ConnectionStatus.DISCONNECTED ∨ p.status = ConnectionStatus.ERROR) →
      (p.lastReconnectAttempt = none ∨
        (p.lastReconnectAttempt = some t ∧ now - t > cooldown)) →
      p ∈ reconnectList cooldown now devices) := by
  constructor
  · intro hlast hle hmem
    rw [reconnectList, List.mem_filter] at hmem
    have hatt := hmem.2
    rw [shouldAttemptReconnect, hlast] at hatt
    have : now - t > cooldown := by
      have h2 := (Bool.and_eq_true _ _).mp hatt
      exact of_decide_eq_true h2.2
    omega
  · intro hmem hstatus hlast
    rw [reconnectList, List.mem_filter]
    refine ⟨hmem, ?_⟩
    rw [shouldAttemptReconnect]
    rcases hlast with hl | ⟨hl, hgt⟩
    · rcases hstatus with hs | hs <;> simp [hl, hs]
    · rcases hstatus with hs | hs <;> simp [hl, hs, hgt]

/-- Witness for C4, the spec scenario: cooldown 5 minutes, failed
attempt at t0 = 0; the tick at t0+2 must not retry, the tick at t0+6
must. -/
theorem c4_witness :
    devA ∉ reconnectList 5 2 [devA] ∧ devA ∈ reconnectList 5 6 [devA] := by
  have h2 := c4_reconnect_cooldown_gate 5 2 [devA] devA 0
  have h6 := c4_reconnect_cooldown_gate 5 6 [devA] devA 0
  exact ⟨h2.1 rfl (by decide),
         h6.2 (by simp) (Or.inl rfl) (Or.inr ⟨rfl, by decide⟩)⟩

/-! ## Theorems about the write coercion (C3) -/

/-- Counterexample to claim C3 as stated: the tag `Ratio2` of the
sample device has a non-integral (float) underlying representation,
yet a supplied float 7/2 is still truncated and recorded as the
integer 3 — the coercion is not conditioned on the target's
representation, so the "only if" direction of the claim fails. -/
theorem c3_counterexample :
    write_plc_value [devFloat] "opc.tcp://flt:4840" "Ratio2"
        (WriteValue.vfloat (mkRat 7 2)) false
      = WriteOutcome.success VariantType.vtFloat (WriteValue.vint 3) ∧
    VariantType.vtFloat ≠ VariantType.vtInt ∧
    WriteValue.vint 3 ≠ WriteValue.vfloat (mkRat 7 2) := by
  refine ⟨by decide, by decide, by decide⟩

/-- Claim C3 amended: every write that reaches the value-coercion line
truncates a caller-supplied floating-point value toward zero to an
integer, regardless of the target node's underlying representation;
every non-float value is written unmodified. -/
theorem c3_write_truncates_all_floats (clients : List DeviceState)
    (plcUrl nodeName : String) (v : WriteValue) (ioFails : Bool)
    (vt : VariantType) (w : WriteValue)
    (h : write_plc_value clients plcUrl nodeName v ioFails = WriteOutcome.success vt w) :
    w = coerceWriteValue v ∧
    (∀ q, v = WriteValue.vfloat q → w = WriteValue.vint (truncFloat q)) ∧
    ((∀ q, v ≠ WriteValue.vfloat q) → w = v) := by
  have hw : w = coerceWriteValue v := by
    unfold write_plc_value at h
    cases hfind : clients.find? (fun p => p.url == plcUrl) with
    | none => simp [hfind] at h
    | some target =>
        simp only [hfind] at h
        by_cases hst : target.status ≠ ConnectionStatus.CONNECTED
        · rw [if_pos hst] at h
          cases h
        · rw [if_neg hst] at h
          cases hnode : target.nodes.find? (fun kv => kv.1 == nodeName) with
          | none => simp [hnode] at h
          | some kv =>
              simp only [hnode] at h
              cases ioFails with
              | true => simp at h
              | false =>
                  simp at h
                  exact h.2.symm
  refine ⟨hw, ?_, ?_⟩
  · intro q hq
    rw [hw, hq]
    rfl
  · intro hnot
    rw [hw]
    cases v with
    | vfloat q => exact absurd rfl (hnot q)
    | vint n => rfl
    | vboolList bs => rfl
    | vstr s => rfl

/-- Witness for C3 amended, the spec scenario: a float 3.0 written to
the integral-typed tag `Setpoint` is recorded as the integer 3. -/
theorem c3_witness :
    write_plc_value [devInt] "opc.tcp://int:4840" "Setpoint" (WriteValue.vfloat 3) false
      = WriteOutcome.success VariantType.vtInt (WriteValue.vint 3) ∧
    WriteValue.vint 3 = coerceWriteValue (WriteValue.vfloat 3) := by
  have h := c3_write_truncates_all_floats [devInt] "opc.tcp://int:4840" "Setpoint"
    (WriteValue.vfloat 3) false VariantType.vtInt (WriteValue.vint 3) (by decide)
  exact ⟨by decide, h.1⟩

/-! ## Theorems about the broadcast fan-out (C1, C2) -/

/-- Claim C1, evaluated at the failing input: a registered non-elevated
subscriber whose resolved visibility set is empty (attached
`allowed_urls` is the empty set) receives the FULL unfiltered batch,
because the source guards the filter with Python truthiness
(`if allowed`) and an empty set is falsy — while a subscriber with a
non-empty restriction is filtered as the claim describes. The claim's
"an empty visibility set receives no device snapshots" is violated by
the code. -/
theorem c1_empty_visibility_receives_full_batch :
    visibleData (some []) [snapA, snapB] = [snapA, snapB] ∧
    (broadcastPass [("user-x", [{ allowedUrls := some [], sendFails := false }])]
        [snapA, snapB]).2
      = [("user-x", { type := "telemetry_update", plcClients := [snapA, snapB] })] ∧
    visibleData (some ["opc.tcp://a:4840"]) [snapA, snapB] = [snapA] := by
  exact ⟨rfl, rfl, rfl⟩

/-- Counterexample to claim C2 as stated: a channel whose delivery
fails is NOT removed from the subscriber registry by the broadcast
loop — the registry after the pass still contains the failing channel
(the `except` branch only logs), even though no payload was delivered
to it. -/
theorem c2_counterexample :
    (broadcastPass regC2 [snapA]).1 = [("user-x", [failingChannel])] ∧
    (broadcastPass regC2 [snapA]).2 = [] := by
  exact ⟨rfl, rfl⟩

/-- Helper: the inner per-socket loop returns the registry unchanged
and delivers one filtered payload per non-failing socket, in order. -/
theorem broadcastSockets_eq (reg : Registry) (uid : String) (sockets : List WsChannel)
    (batch : List Snapshot) :
    broadcastSockets reg uid sockets batch
      = (reg, (sockets.filter (fun ws => !ws.sendFails)).map
          (fun ws =>
            (uid, { type := "telemetry_update",
                    plcClients := visibleData ws.allowedUrls batch }))) := by
  induction sockets generalizing reg with
  | nil => rfl
  | cons ws0 rest ih =>
      cases hf : ws0.sendFails <;> simp [broadcastSockets, handleSocket, hf, ih]

/-- Helper: the outer per-user loop returns the registry unchanged and
concatenates the per-user deliveries. -/
theorem broadcastEntries_eq (reg : Registry) (entries : List (String × List WsChannel))
    (batch : List Snapshot) :
    broadcastEntries reg entries batch
      = (reg, entries.flatMap (fun e =>
          (e.2.filter (fun ws => !ws.sendFails)).map
            (fun ws =>
              (e.1, { type := "telemetry_update",
                      plcClients := visibleData ws.allowedUrls batch })))) := by
  induction entries generalizing reg with
  | nil => rfl
  | cons e rest ih =>
      obtain ⟨uid, sockets⟩ := e
      simp [broadcastEntries, broadcastSockets_eq, ih]

/-- Claim C2 amended: a delivery failure on one subscriber channel is
caught (the loop continues, and every other registered channel — in
fact every channel whose own send does not fail — still receives its
filtered batch in the same tick), but the failing channel is NOT
removed from the subscriber registry by the broadcast loop: the
registry is left exactly as it was; channels leave the registry only
through the websocket handler's own cleanup. -/
theorem c2_amended_failure_logged_registry_unchanged (reg : Registry)
    (batch : List Snapshot) (uid : String) (sockets : List WsChannel) (ws : WsChannel) :
    (broadcastPass reg batch).1 = reg ∧
    ((uid, sockets) ∈ reg → ws ∈ sockets → ws.sendFails = false →
      (uid, { type := "telemetry_update", plcClients := visibleData ws.allowedUrls batch })
        ∈ (broadcastPass reg batch).2) := by
  constructor
  · rw [broadcastPass, broadcastEntries_eq]
  · intro he hws hok
    rw [broadcastPass, broadcastEntries_eq]
    refine List.mem_flatMap.mpr ⟨(uid, sockets), he, ?_⟩
    refine List.mem_map.mpr ⟨ws, List.mem_filter.mpr ⟨hws, ?_⟩, rfl⟩
    simp [hok]

/-- Witness for C2 amended: with one failing and one healthy channel
for the same user, the registry is unchanged and the healthy channel
still receives its filtered payload in the same tick. -/
theorem c2_amended_witness :
    (broadcastPass [("user-x", [failingChannel, healthyChannel])] [snapA]).1
      = [("user-x", [failingChannel, healthyChannel])] ∧
    ("user-x",
      ({ type := "telemetry_update",
         plcClients := visibleData healthyChannel.allowedUrls [snapA] } : Payload))
      ∈ (broadcastPass [("user-x", [failingChannel, healthyChannel])] [snapA]).2 := by
  have h := c2_amended_failure_logged_registry_unchanged
    [("user-x", [failingChannel, healthyChannel])] [snapA]
    "user-x" [failingChannel, healthyChannel] healthyChannel
  exact ⟨h.1, h.2 (by simp) (by simp) rfl⟩

/-! ## Theorems about park visibility resolution (C9) -/

/-- Helper: a non-empty result of the Python falsy-or on an optional
string pins down the option. -/
theorem orElseStr_eq_of_ne (x : Option String) (s : String)
    (h : orElseStr x "" = s) (hs : s ≠ "") : x = some s := by
  cases x with
  | none => exact absurd h.symm hs
  | some v =>
      rw [orElseStr] at h
      by_cases hv : v = ""
      · rw [if_pos hv] at h
        exact absurd h.symm hs
      · rw [if_neg hv] at h
        rw [h]

/-- Helper: an element of a dict after one assignment is an old element
or the new binding. -/
theorem mem_insertPark {parks : List (String × ParkInfo)} {k : String} {v : ParkInfo}
    {kv : String × ParkInfo} (h : kv ∈ insertPark parks k v) :
    kv ∈ parks ∨ kv = (k, v) := by
  rw [insertPark] at h
  split at h
  · obtain ⟨x, hx, hfx⟩ := List.mem_map.mp h
    by_cases hk : x.1 = k
    · right
      rw [if_pos hk] at hfx
      exact hfx.symm
    · left
      rw [if_neg hk] at hfx
      exact hfx ▸ hx
  · rcases List.mem_append.mp h with h1 | h1
    · exact Or.inl h1
    · right
      simpa using h1

/-- Helper: a binding produced by one `PARKS` loop iteration either was
already present or carries the url of the processed config entry. -/
theorem mem_addParkEntry {parks : List (String × ParkInfo)} {item : PlcEntry}
    {kv : String × ParkInfo} (h : kv ∈ addParkEntry parks item) :
    kv ∈ parks ∨ (item.url = some kv.2.url ∧ kv.2.url ≠ "") := by
  rw [addParkEntry] at h
  by_cases hu : orElseStr item.url "" = ""
  · rw [if_pos hu] at h
    exact Or.inl h
  · rw [if_neg hu] at h
    rcases mem_insertPark h with h1 | h1
    · exact Or.inl h1
    · right
      have hurl : kv.2.url = orElseStr item.url "" := by rw [h1]
      rw [hurl]
      exact ⟨orElseStr_eq_of_ne item.url _ rfl hu, hu⟩

/-- Helper: every binding of the folded `PARKS` map traces back to the
accumulator or to some config entry's url. -/
theorem mem_foldl_addParkEntry (cfg : List PlcEntry) :
    ∀ acc kv, kv ∈ cfg.foldl addParkEntry acc →
      kv ∈ acc ∨ ∃ e, e ∈ cfg ∧ e.url = some kv.2.url ∧ kv.2.url ≠ "" := by
  induction cfg with
  | nil =>
      intro acc kv h
      exact Or.inl h
  | cons e rest ih =>
      intro acc kv h
      rw [List.foldl_cons] at h
      rcases ih (addParkEntry acc e) kv h with h1 | ⟨e2, he2, hurl⟩
      · rcases mem_addParkEntry h1 with h2 | h2
        · exact Or.inl h2
        · exact Or.inr ⟨e, List.mem_cons_self e rest, h2⟩
      · exact Or.inr ⟨e2, List.mem_cons_of_mem e he2, hurl⟩

/-- Helper: a successful `PARKS.get` returns a stored binding. -/
theorem parkLookup_mem {parks : List (String × ParkInfo)} {pid : String} {info : ParkInfo}
    (h : parkLookup parks pid = some info) : ∃ k, (k, info) ∈ parks := by
  rw [parkLookup] at h
  cases hf : parks.find? (fun kv => kv.1 == pid) with
  | none =>
      rw [hf] at h
      cases h
  | some kv =>
      rw [hf] at h
      cases h
      exact ⟨kv.1, by simpa using List.mem_of_find?_eq_some hf⟩

/-- Helper: membership after a set insertion. -/
theorem mem_insertStr {s : List String} {x y : String} (h : y ∈ insertStr s x) :
    y ∈ s ∨ y = x := by
  rw [insertStr] at h
  split at h
  · exact Or.inl h
  · rcases List.mem_append.mp h with h1 | h1
    · exact Or.inl h1
    · right
      simpa using h1

/-- Helper: one url-collection step only adds urls of known parks. -/
theorem mem_addParkUrl {parks : List (String × ParkInfo)} {urls : List String}
    {pid url : String} (h : url ∈ addParkUrl parks urls pid) :
    url ∈ urls ∨ ∃ info, parkLookup parks pid = some info ∧ info.url = url := by
  cases hl : parkLookup parks pid with
  | none =>
      simp only [addParkUrl, hl] at h
      exact Or.inl h
  | some info =>
      simp only [addParkUrl, hl] at h
      by_cases hu : info.url ≠ ""
      · rw [if_pos hu] at h
        rcases mem_insertStr h with h1 | h1
        · exact Or.inl h1
        · exact Or.inr ⟨info, rfl, h1.symm⟩
      · rw [if_neg hu] at h
        exact Or.inl h

/-- Helper: every url collected over a list of park ids comes from a
successful lookup. -/
theorem mem_foldl_addParkUrl (parks : List (String × ParkInfo)) (pids : List String) :
    ∀ acc url, url ∈ pids.foldl (addParkUrl parks) acc →
      url ∈ acc ∨ ∃ pid info, parkLookup parks pid = some info ∧ info.url = url := by
  induction pids with
  | nil =>
      intro acc url h
      exact Or.inl h
  | cons pid rest ih =>
      intro acc url h
      rw [List.foldl_cons] at h
      rcases ih (addParkUrl parks acc pid) url h with h1 | h1
      · rcases mem_addParkUrl h1 with h2 | ⟨info, hinfo⟩
        · exact Or.inl h2
        · exact Or.inr ⟨pid, info, hinfo⟩
      · exact Or.inr h1

/-- Claim C9: for every loaded configuration, every list of granted
park ids and every list of access rows, each endpoint url in the
resolved visibility set is the url of some entry present in the loaded
configuration — grants for park ids absent from config.json, and
unknown ids fed to the url mapping, are silently excluded. -/
theorem c9_visibility_subset_of_config (cfg : List PlcEntry) (pids rows : List String)
    (url : String) :
    (url ∈ map_park_ids_to_urls (buildParks cfg) pids →
      ∃ e, e ∈ cfg ∧ e.url = some url) ∧
    (url ∈ user_allowed_urls (buildParks cfg) rows →
      ∃ e, e ∈ cfg ∧ e.url = some url) := by
  have main : ∀ qs, url ∈ map_park_ids_to_urls (buildParks cfg) qs →
      ∃ e, e ∈ cfg ∧ e.url = some url := by
    intro qs h
    rw [map_park_ids_to_urls] at h
    rcases mem_foldl_addParkUrl (buildParks cfg) qs [] url h with h1 | ⟨pid, info, hl, hu⟩
    · cases h1
    · obtain ⟨k, hk⟩ := parkLookup_mem hl
      rcases mem_foldl_addParkEntry cfg [] (k, info) hk with h2 | ⟨e, he, heu, _⟩
      · cases h2
      · exact ⟨e, he, by rwa [hu] at heu⟩
  exact ⟨main pids, fun h => main (user_allowed_park_ids (buildParks cfg) rows) h⟩

/-- Witness for C9 at a concrete configuration: the visibility resolved
from rows naming one live park and one stale park is covered by the
configuration. -/
theorem c9_witness :
    ∃ e, e ∈ cfgSample ∧ e.url = some "opc.tcp://a:4840" :=
  (c9_visibility_subset_of_config cfgSample [] ["p1", "ghost"] "opc.tcp://a:4840").2
    (by decide)

/-! ## Theorems about park grants (C10) -/

/-- Helper: appending the pair bumps its row count by one. -/
theorem countPair_append_pair (t : AccessTable) (uid : Nat) (pid : String) :
    countPair (t ++ [(uid, pid)]) uid pid = countPair t uid pid + 1 := by
  simp [countPair, List.filter_append]

/-- Claim C10: granting a park is idempotent — a successful grant
followed by the same grant returns the same table unchanged, and when
the (user, park) pair already exists (exactly one row, as the endpoint
itself maintains), the grant leaves the access table unchanged. -/
theorem c10_grant_idempotent (parks : List (String × ParkInfo)) (t : AccessTable)
    (uid : Nat) (pid : String) (t1 : AccessTable)
    (h : grant_user_park parks t uid pid = GrantResult.ok t1) :
    grant_user_park parks t1 uid pid = GrantResult.ok t1 ∧
    (countPair t uid pid = 1 → t1 = t) := by
  rw [grant_user_park] at h
  by_cases hv : is_valid_park parks pid
  · have hcond : ¬ ¬ (is_valid_park parks pid = true) := not_not_intro hv
    rw [if_neg hcond] at h
    cases hc : countPair t uid pid with
    | zero =>
        rw [hc] at h
        cases h
        constructor
        · rw [grant_user_park, if_neg hcond, countPair_append_pair, hc]
        · intro h1
          exact absurd h1 (by decide)
    | succ n =>
        cases n with
        | zero =>
            rw [hc] at h
            cases h
            constructor
            · rw [grant_user_park, if_neg hcond, hc]
            · intro _
              rfl
        | succ m =>
            rw [hc] at h
            cases h
  · rw [if_pos hv] at h
    cases h

/-- Witness for C10: granting park p1 to user 1 twice, starting from an
empty table, equals granting once. -/
theorem c10_witness :
    grant_user_park (buildParks cfgSample) [(1, "p1")] 1 "p1"
      = GrantResult.ok [(1, "p1")] := by
  have h := c10_grant_idempotent (buildParks cfgSample) [] 1 "p1" [(1, "p1")] (by decide)
  exact h.1

end Scada
